import Mathlib

/-
  Shallow embedding of the drone flight controller core
  (src/controller/src/lib.rs).

  Modelling choices:
  * `f32` is modelled by `ℝ` in the finite-valued fragment of the code
    (the mixing arithmetic, setters, validation).  Where the NaN semantics
    of the comparison operators matters, the type `F32` (a real number or
    a NaN point) is used; IEEE comparisons against NaN are `False`.
  * The fixed array `[IMUDataPoint; 10]` is a function `Fin 10 → IMUDataPoint`;
    an indexing operation whose index might be out of bounds (a Rust bounds
    check that panics) is modelled by returning `Option`/`Except` failure.
  * `panic!` in `validate_input` is modelled as `Except.error` carrying the
    panic message.
-/

namespace Drone

open scoped Classical

/-- The 3-component vector of `nalgebra::Vector3<f32>`, over `ℝ`. -/
structure Vector3 where
  x : ℝ
  y : ℝ
  z : ℝ

def Vector3.zeros : Vector3 := ⟨0, 0, 0⟩

/-- `Vector3::dot`. -/
def Vector3.dot (a b : Vector3) : ℝ := a.x * b.x + a.y * b.y + a.z * b.z

/-- Componentwise subtraction, `a - b` on `Vector3`. -/
def Vector3.sub (a b : Vector3) : Vector3 := ⟨a.x - b.x, a.y - b.y, a.z - b.z⟩

/-- Scalar multiplication `a * c` (vector times scalar) on `Vector3`. -/
def Vector3.scale (a : Vector3) (c : ℝ) : Vector3 := ⟨a.x * c, a.y * c, a.z * c⟩

/-- `fn min(v1: f32, v2: f32) -> f32` (lib.rs lines 7-12):
returns `v1` if `v1 < v2`, else `v2`. -/
noncomputable def min (v1 v2 : ℝ) : ℝ := if v1 < v2 then v1 else v2

/-- `fn max(v1: f32, v2: f32) -> f32` (lib.rs lines 14-19):
returns `v1` if `v1 > v2`, else `v2`. -/
noncomputable def max (v1 v2 : ℝ) : ℝ := if v1 > v2 then v1 else v2

/-- `struct Motor` (lib.rs lines 21-24). -/
structure Motor where
  speed : ℝ
  pos : Vector3

/-- `Motor::new` (lib.rs lines 26-28): speed starts at `0.0`. -/
def Motor.new (pos : Vector3) : Motor := ⟨0, pos⟩

/-- `struct MotorSpeeds` (lib.rs lines 31-36). -/
structure MotorSpeeds where
  front_left : Motor
  front_right : Motor
  rear_left : Motor
  rear_right : Motor

/-- `MotorSpeeds::new` (lib.rs lines 38-45). -/
def MotorSpeeds.new : MotorSpeeds :=
  ⟨Motor.new ⟨1, 0, -1⟩, Motor.new ⟨1, 0, 1⟩, Motor.new ⟨-1, 0, -1⟩, Motor.new ⟨-1, 0, 1⟩⟩

/-- `MotorSpeeds::set_front_left` (lib.rs lines 46-48). -/
noncomputable def MotorSpeeds.set_front_left (s : MotorSpeeds) (val : ℝ) : MotorSpeeds :=
  { s with front_left := { s.front_left with speed := min (max val 0) 1 } }

/-- `MotorSpeeds::set_front_right` (lib.rs lines 49-51). -/
noncomputable def MotorSpeeds.set_front_right (s : MotorSpeeds) (val : ℝ) : MotorSpeeds :=
  { s with front_right := { s.front_right with speed := min (max val 0) 1 } }

/-- `MotorSpeeds::set_rear_left` (lib.rs lines 52-54). -/
noncomputable def MotorSpeeds.set_rear_left (s : MotorSpeeds) (val : ℝ) : MotorSpeeds :=
  { s with rear_left := { s.rear_left with speed := min (max val 0) 1 } }

/-- `MotorSpeeds::set_rear_right` (lib.rs lines 55-57). -/
noncomputable def MotorSpeeds.set_rear_right (s : MotorSpeeds) (val : ℝ) : MotorSpeeds :=
  { s with rear_right := { s.rear_right with speed := min (max val 0) 1 } }

/-- `MotorSpeeds::get_front_left` (lib.rs lines 58-60). -/
def MotorSpeeds.get_front_left (s : MotorSpeeds) : ℝ := s.front_left.speed

/-- `MotorSpeeds::get_front_right` (lib.rs lines 61-63). -/
def MotorSpeeds.get_front_right (s : MotorSpeeds) : ℝ := s.front_right.speed

/-- `MotorSpeeds::get_rear_left` (lib.rs lines 64-66). -/
def MotorSpeeds.get_rear_left (s : MotorSpeeds) : ℝ := s.rear_left.speed

/-- `MotorSpeeds::get_rear_right` (lib.rs lines 67-69). -/
def MotorSpeeds.get_rear_right (s : MotorSpeeds) : ℝ := s.rear_right.speed

/-- `struct IMUDataPoint` (lib.rs lines 94-98). -/
structure IMUDataPoint where
  gyro : Vector3
  accel : Vector3
  time_point : ℝ

/-- `IMUDataPoint::new` (lib.rs lines 106-112). -/
def IMUDataPoint.new (gyro accel : Vector3) (time_point : ℝ) : IMUDataPoint :=
  ⟨gyro, accel, time_point⟩

/-- `Default for IMUDataPoint` (lib.rs lines 100-104): zero vectors, time 0. -/
def IMUDataPoint.default : IMUDataPoint := IMUDataPoint.new Vector3.zeros Vector3.zeros 0

/-- `struct IMUData` (lib.rs lines 72-75): a 10-entry array and a write index. -/
structure IMUData where
  imu_data : Fin 10 → IMUDataPoint
  data_idx : ℕ

/-- `IMUData::new` (lib.rs lines 77-82): default-filled array, index 0. -/
def IMUData.new : IMUData := ⟨fun _ => IMUDataPoint.default, 0⟩

/-- `IMUData::add_data_point` (lib.rs lines 84-87): increments `data_idx`
FIRST and then writes `imu_data[data_idx]`.  The Rust bounds check panics
when the incremented index reaches 10; that failure is `none` here. -/
def IMUData.add_data_point (s : IMUData) (data_point : IMUDataPoint) : Option IMUData :=
  if h : s.data_idx + 1 < 10 then
    some ⟨Function.update s.imu_data ⟨s.data_idx + 1, h⟩ data_point, s.data_idx + 1⟩
  else none

/-- `IMUData::get_data_point` (lib.rs lines 89-91): reads `imu_data[data_idx]`;
an out-of-bounds index would panic, modelled as `none`. -/
def IMUData.get_data_point (s : IMUData) : Option IMUDataPoint :=
  if h : s.data_idx < 10 then some (s.imu_data ⟨s.data_idx, h⟩) else none

/-- `struct TransmitterState` (lib.rs lines 115-120). -/
structure TransmitterState where
  up_down : ℝ
  rotate_pos_neg : ℝ
  left_right : ℝ
  forwar_backward : ℝ

/-- `TransmitterState::validate_input` (lib.rs lines 122-127): panics (modelled
as `Except.error` with the panic message) when `val > 1.0 || val < 0.0`. -/
noncomputable def validate_input (val : ℝ) : Except String ℝ :=
  if val > 1 ∨ val < 0 then Except.error "Transmitter values must be between 1 and 0"
  else Except.ok val

/-- `TransmitterState::new` (lib.rs lines 128-135): the four fields are
validated in the order they appear in the struct literal
(`up_down`, `rotate_pos_neg`, `forwar_backward`, `left_right`). -/
noncomputable def TransmitterState.new (up_down rotate_pos_neg forwar_backward left_right : ℝ) :
    Except String TransmitterState :=
  match validate_input up_down with
  | Except.error e => Except.error e
  | Except.ok u =>
    match validate_input rotate_pos_neg with
    | Except.error e => Except.error e
    | Except.ok r =>
      match validate_input forwar_backward with
      | Except.error e => Except.error e
      | Except.ok f =>
        match validate_input left_right with
        | Except.error e => Except.error e
        | Except.ok l => Except.ok ⟨u, r, l, f⟩

/-- `fn length` (lib.rs lines 138-140). -/
noncomputable def length (vec : Vector3) : ℝ :=
  Real.sqrt (vec.x * vec.x + vec.y * vec.y + vec.z * vec.z)

/-- `fn constrain` (lib.rs lines 142-144). -/
noncomputable def constrain (val : ℝ) : ℝ := min (max val 0) 1

/-- `struct Controller` (lib.rs lines 146-149). -/
structure Controller where
  motors : MotorSpeeds
  imu : IMUData

/-- `Controller::new` (lib.rs lines 151-156). -/
def Controller.new : Controller := ⟨MotorSpeeds.new, IMUData.new⟩

/-- `Controller::calculate_torque` (lib.rs lines 158-162): difference of the
desired rotation and the latest gyro sample, with the `y` component zeroed.
The latest-sample read is the fallible `get_data_point`. -/
noncomputable def Controller.calculate_torque (c : Controller) (desired_rotation : Vector3) :
    Option Vector3 :=
  match c.imu.get_data_point with
  | none => none
  | some dp =>
    some ⟨(Vector3.sub desired_rotation dp.gyro).x, 0, (Vector3.sub desired_rotation dp.gyro).z⟩

/-- `Controller::calculate_motor_speeds` (lib.rs lines 164-207).  Appends the
fresh sample (propagating the append's bounds-check failure), computes the
desired rotation and torque error, then updates the four motor speeds in
the source's order.  Returns the updated controller state; the Rust function
returns `&self.motors` after mutating `self` in place. -/
noncomputable def Controller.calculate_motor_speeds (c : Controller)
    (imu_data_point : IMUDataPoint) (transmitter_state : TransmitterState) :
    Option Controller :=
  match c.imu.add_data_point imu_data_point with
  | none => none
  | some imu1 =>
    let desired_rotation : Vector3 :=
      ⟨1 / 6 * Real.pi * transmitter_state.left_right, 0,
        1 / 6 * Real.pi * transmitter_state.forwar_backward⟩
    match Controller.calculate_torque ⟨c.motors, imu1⟩ desired_rotation with
    | none => none
    | some desiered_torque =>
      let m0 := c.motors
      let s1 := constrain (length (Vector3.sub desiered_torque
          (Vector3.scale m0.front_left.pos (Vector3.dot m0.front_left.pos desiered_torque)))
        + transmitter_state.up_down * 0.5 + transmitter_state.rotate_pos_neg * 0.25)
      let m1 := { m0 with front_left := { m0.front_left with speed := s1 } }
      let s2 := constrain (length (Vector3.sub desiered_torque
          (Vector3.scale m1.front_right.pos (Vector3.dot m1.front_right.pos desiered_torque)))
        + transmitter_state.up_down * 0.5 - transmitter_state.rotate_pos_neg * 0.25)
      let m2 := { m1 with front_right := { m1.front_right with speed := s2 } }
      let s3 := constrain (length (Vector3.sub desiered_torque
          (Vector3.scale m2.rear_left.pos (Vector3.dot m2.rear_left.pos desiered_torque)))
        + transmitter_state.up_down * 0.5 - transmitter_state.rotate_pos_neg * 0.25)
      let m3 := { m2 with rear_left := { m2.rear_left with speed := s3 } }
      let s4 := constrain (length (Vector3.sub desiered_torque
          (Vector3.scale m3.rear_right.pos (Vector3.dot m3.rear_right.pos desiered_torque)))
        + transmitter_state.up_down * 0.5 + transmitter_state.rotate_pos_neg * 0.25)
      let m4 := { m3 with rear_right := { m3.rear_right with speed := s4 } }
      some ⟨m4, imu1⟩

/- ----------------------------------------------------------------------
   The NaN-aware model of `f32` for the comparison-based clamping code.
   ---------------------------------------------------------------------- -/

/-- An `f32` value that is either NaN or a (finite) real. -/
inductive F32 where
  | nan : F32
  | num : ℝ → F32

/-- IEEE `<` on `f32`: any comparison involving NaN is false. -/
def F32.flt : F32 → F32 → Prop
  | F32.num a, F32.num b => a < b
  | _, _ => False

/-- IEEE `>` on `f32`: any comparison involving NaN is false. -/
def F32.fgt : F32 → F32 → Prop
  | F32.num a, F32.num b => a > b
  | _, _ => False

/-- `fn min` over the NaN-aware `f32` model. -/
noncomputable def fminF (v1 v2 : F32) : F32 := if F32.flt v1 v2 then v1 else v2

/-- `fn max` over the NaN-aware `f32` model. -/
noncomputable def fmaxF (v1 v2 : F32) : F32 := if F32.fgt v1 v2 then v1 else v2

/-- `fn constrain` over the NaN-aware `f32` model. -/
noncomputable def constrainF (v : F32) : F32 := fminF (fmaxF v (F32.num 0)) (F32.num 1)

/-- The value stored by each `MotorSpeeds` setter, `min(max(val, 0.0), 1.0)`,
over the NaN-aware `f32` model. -/
noncomputable def setter_stored (v : F32) : F32 := fminF (fmaxF v (F32.num 0)) (F32.num 1)

/- ----------------------------------------------------------------------
   Derived abbreviations used to state the claims.
   ---------------------------------------------------------------------- -/

/-- Iterated `add_data_point` of default samples, for exercising the buffer. -/
def addMany (s : IMUData) : ℕ → Option IMUData
  | 0 => some s
  | n + 1 => Option.bind (addMany s n) (fun st => IMUData.add_data_point st IMUDataPoint.default)

/-- A valid command input: all four axes in `[0, 1]`. -/
def validCmd (t : TransmitterState) : Prop :=
  (0 ≤ t.up_down ∧ t.up_down ≤ 1) ∧ (0 ≤ t.rotate_pos_neg ∧ t.rotate_pos_neg ≤ 1) ∧
    (0 ≤ t.forwar_backward ∧ t.forwar_backward ≤ 1) ∧ (0 ≤ t.left_right ∧ t.left_right ≤ 1)

/-- The four motors sit at the standard X-frame arm positions. -/
def stdPos (m : MotorSpeeds) : Prop :=
  m.front_left.pos = ⟨1, 0, -1⟩ ∧ m.front_right.pos = ⟨1, 0, 1⟩ ∧
    m.rear_left.pos = ⟨-1, 0, -1⟩ ∧ m.rear_right.pos = ⟨-1, 0, 1⟩

/-- All four stored motor speeds lie in `[0, 1]`. -/
def speedsInUnit (m : MotorSpeeds) : Prop :=
  (0 ≤ m.front_left.speed ∧ m.front_left.speed ≤ 1) ∧
    (0 ≤ m.front_right.speed ∧ m.front_right.speed ≤ 1) ∧
    (0 ≤ m.rear_left.speed ∧ m.rear_left.speed ≤ 1) ∧
    (0 ≤ m.rear_right.speed ∧ m.rear_right.speed ≤ 1)

/-- The MotorSpeeds invariant of the spec: standard fixed positions and
speeds in `[0, 1]`. -/
def MotorInv (m : MotorSpeeds) : Prop := stdPos m ∧ speedsInUnit m

/-- The four speeds, as a tuple. -/
def speedsOf (m : MotorSpeeds) : ℝ × ℝ × ℝ × ℝ :=
  ⟨m.front_left.speed, m.front_right.speed, m.rear_left.speed, m.rear_right.speed⟩

/-- The four arm positions, as a tuple. -/
def posOf (m : MotorSpeeds) : Vector3 × Vector3 × Vector3 × Vector3 :=
  ⟨m.front_left.pos, m.front_right.pos, m.rear_left.pos, m.rear_right.pos⟩

/-- The torque error one tick computes from the freshly appended sample and
the transmitter state (desired rotation minus gyro, `y` zeroed). -/
noncomputable def torqueErr (p : IMUDataPoint) (t : TransmitterState) : Vector3 :=
  ⟨1 / 6 * Real.pi * t.left_right - p.gyro.x, 0,
    1 / 6 * Real.pi * t.forwar_backward - p.gyro.z⟩

/-- The magnitude term of one motor: the norm of the torque error minus its
(unnormalized) projection onto the arm position. -/
noncomputable def motorRaw (pos te : Vector3) : ℝ :=
  length (Vector3.sub te (Vector3.scale pos (Vector3.dot pos te)))

/-- The motor state one successful tick produces, as a function of the
previous motor state, the appended sample and the transmitter state. -/
noncomputable def mixMotors (m : MotorSpeeds) (p : IMUDataPoint) (t : TransmitterState) :
    MotorSpeeds :=
  ⟨⟨constrain (motorRaw m.front_left.pos (torqueErr p t)
      + t.up_down * 0.5 + t.rotate_pos_neg * 0.25), m.front_left.pos⟩,
   ⟨constrain (motorRaw m.front_right.pos (torqueErr p t)
      + t.up_down * 0.5 - t.rotate_pos_neg * 0.25), m.front_right.pos⟩,
   ⟨constrain (motorRaw m.rear_left.pos (torqueErr p t)
      + t.up_down * 0.5 - t.rotate_pos_neg * 0.25), m.rear_left.pos⟩,
   ⟨constrain (motorRaw m.rear_right.pos (torqueErr p t)
      + t.up_down * 0.5 + t.rotate_pos_neg * 0.25), m.rear_right.pos⟩⟩

/-- The clamp of the spec, `clamp(v, lo, hi) = min(max(v, lo), hi)` with the
mathematical min/max. -/
noncomputable def clampSpec (v lo hi : ℝ) : ℝ := Min.min (Max.max v lo) hi

/-- The per-tick motor speeds as the spec's §4.4 words describe them:
`desired = ((π/6)·roll, 0, (π/6)·pitch)`, `torqueError = desired −
angularVelocity` with its Y component zeroed, and each motor speed
`clamp(‖torqueError − p·(p·torqueError)‖ + throttle·0.5 +
yawSign·yawRate·0.25, 0, 1)` with yawSign +1 on front-left/rear-right and
−1 on front-right/rear-left.  Stated for comparison against the code. -/
noncomputable def specMotorSpeeds (throttle yawRate pitch roll : ℝ)
    (angularVelocity : Vector3) : ℝ × ℝ × ℝ × ℝ :=
  let desired : Vector3 := ⟨Real.pi / 6 * roll, 0, Real.pi / 6 * pitch⟩
  let te0 : Vector3 := Vector3.sub desired angularVelocity
  let torqueError : Vector3 := ⟨te0.x, 0, te0.z⟩
  let out : Vector3 → ℝ → ℝ := fun p ys =>
    clampSpec (length (Vector3.sub torqueError (Vector3.scale p (Vector3.dot p torqueError)))
      + throttle * 0.5 + ys * yawRate * 0.25) 0 1
  ⟨out ⟨1, 0, -1⟩ 1, out ⟨1, 0, 1⟩ (-1), out ⟨-1, 0, -1⟩ (-1), out ⟨-1, 0, 1⟩ 1⟩

/-- The all-zero transmitter state, used as a concrete input. -/
def tzero : TransmitterState := ⟨0, 0, 0, 0⟩

/- ----------------------------------------------------------------------
   Helper lemmas.
   ---------------------------------------------------------------------- -/

lemma min_eq_std (a b : ℝ) : min a b = Min.min a b := by
  unfold min
  rcases lt_or_le a b with h | h
  · rw [if_pos h]
    exact (min_eq_left h.le).symm
  · rw [if_neg (not_lt.mpr h)]
    exact (min_eq_right h).symm

lemma max_eq_std (a b : ℝ) : max a b = Max.max a b := by
  unfold max
  rcases lt_or_le b a with h | h
  · rw [if_pos h]
    exact (max_eq_left h.le).symm
  · rw [if_neg (not_lt.mpr h)]
    exact (max_eq_right h).symm

lemma constrain_nonneg (v : ℝ) : 0 ≤ constrain v := by
  unfold constrain min max
  split_ifs <;> linarith

lemma constrain_le_one (v : ℝ) : constrain v ≤ 1 := by
  unfold constrain min max
  split_ifs <;> linarith

lemma constrain_eq_clampSpec (v : ℝ) : constrain v = clampSpec v 0 1 := by
  unfold constrain clampSpec
  rw [max_eq_std, min_eq_std]

lemma get_after_add {s s' : IMUData} {p : IMUDataPoint}
    (h : s.add_data_point p = some s') : s'.get_data_point = some p := by
  unfold IMUData.add_data_point at h
  split at h
  next hlt =>
    cases h
    unfold IMUData.get_data_point
    rw [dif_pos hlt]
    simp [Function.update_same]
  next => exact Option.noConfusion h

lemma calc_motor_speeds_eq (c : Controller) (p : IMUDataPoint) (t : TransmitterState)
    (h : c.imu.data_idx + 1 < 10) :
    Controller.calculate_motor_speeds c p t =
      some ⟨mixMotors c.motors p t,
        ⟨Function.update c.imu.imu_data ⟨c.imu.data_idx + 1, h⟩ p, c.imu.data_idx + 1⟩⟩ := by
  unfold Controller.calculate_motor_speeds IMUData.add_data_point
    Controller.calculate_torque IMUData.get_data_point
  rw [dif_pos h]
  simp only [dif_pos h, Function.update_same, mixMotors, motorRaw, torqueErr,
    Vector3.sub, Vector3.dot, Vector3.scale]

lemma calc_motor_speeds_none (c : Controller) (p : IMUDataPoint) (t : TransmitterState)
    (h : ¬ c.imu.data_idx + 1 < 10) :
    Controller.calculate_motor_speeds c p t = none := by
  unfold Controller.calculate_motor_speeds IMUData.add_data_point
  rw [dif_neg h]

lemma tick_motors {c : Controller} {p : IMUDataPoint} {t : TransmitterState} {c' : Controller}
    (h : Controller.calculate_motor_speeds c p t = some c') :
    c'.motors = mixMotors c.motors p t := by
  by_cases hidx : c.imu.data_idx + 1 < 10
  · rw [calc_motor_speeds_eq c p t hidx] at h
    cases h
    rfl
  · rw [calc_motor_speeds_none c p t hidx] at h
    exact Option.noConfusion h

lemma speedsOf_mix_congr {m1 m2 : MotorSpeeds} (p : IMUDataPoint) (t : TransmitterState)
    (h : posOf m1 = posOf m2) :
    speedsOf (mixMotors m1 p t) = speedsOf (mixMotors m2 p t) := by
  unfold posOf at h
  simp only [Prod.mk.injEq] at h
  obtain ⟨h1, h2, h3, h4⟩ := h
  unfold speedsOf mixMotors
  rw [h1, h2, h3, h4]

lemma mix_posOf (m : MotorSpeeds) (p : IMUDataPoint) (t : TransmitterState) :
    posOf (mixMotors m p t) = posOf m := rfl

/- ----------------------------------------------------------------------
   Claim theorems.
   ---------------------------------------------------------------------- -/

/-- Claim C1: the sensor history advances its write index before the bounds
check and never wraps, so on a fresh buffer nine appends succeed (leaving the
write index at 9, the last slot) and the tenth append already trips the
bounds check (index 10 on a 10-entry array) — the code fails before `N = 10`
samples have even been stored, with a bounds panic rather than ring
semantics or a `BufferFull` condition. -/
theorem C1_buffer_overflow :
    Option.map IMUData.data_idx (addMany IMUData.new 9) = some 9 ∧
      addMany IMUData.new 10 = none :=
  ⟨rfl, rfl⟩

/-- Claim C6 (counterexample): querying the latest sample before any append
does not fail with a `NoData` condition — it succeeds and returns the
default all-zero sample stored at index 0. -/
theorem C6_counterexample :
    IMUData.new.get_data_point = some IMUDataPoint.default ∧
      IMUData.new.get_data_point ≠ none :=
  ⟨rfl, fun h => Option.noConfusion ((rfl : IMUData.new.get_data_point = some IMUDataPoint.default) ▸ h)⟩

/-- Claim C6 (amended): before any append the latest-sample accessor returns
the default all-zero sample (it does not fail); after any successful append
it returns the most recently appended sample. -/
theorem C6_latest_sample :
    IMUData.new.get_data_point = some IMUDataPoint.default ∧
      ∀ (s s' : IMUData) (p : IMUDataPoint),
        s.add_data_point p = some s' → s'.get_data_point = some p :=
  ⟨rfl, fun _ _ _ h => get_after_add h⟩

/-- The buffer state after one successful append on a fresh buffer. -/
def imuW : IMUData := (IMUData.new.add_data_point IMUDataPoint.default).getD IMUData.new

/-- Witness for C6: the amended theorem applied to the fresh buffer and one
concrete append. -/
theorem C6_latest_sample_witness : imuW.get_data_point = some IMUDataPoint.default :=
  C6_latest_sample.2 IMUData.new imuW IMUDataPoint.default rfl

/-- Claim C7: each named setter stores exactly `min(max(v, 0), 1)` (observable
through the matching getter), this stored value lies in `[0, 1]` for every
input `v`, and each named getter returns the currently stored speed field. -/
theorem C7_setters_getters :
    ∀ (s : MotorSpeeds) (v : ℝ),
      (s.set_front_left v).get_front_left = min (max v 0) 1 ∧
      (s.set_front_right v).get_front_right = min (max v 0) 1 ∧
      (s.set_rear_left v).get_rear_left = min (max v 0) 1 ∧
      (s.set_rear_right v).get_rear_right = min (max v 0) 1 ∧
      (0 ≤ min (max v 0) 1 ∧ min (max v 0) 1 ≤ 1) ∧
      (s.get_front_left = s.front_left.speed ∧ s.get_front_right = s.front_right.speed ∧
        s.get_rear_left = s.rear_left.speed ∧ s.get_rear_right = s.rear_right.speed) :=
  fun _ v =>
    ⟨rfl, rfl, rfl, rfl, ⟨constrain_nonneg v, constrain_le_one v⟩, rfl, rfl, rfl, rfl⟩

/-- Claim C10: over the NaN-aware `f32` model, `constrain` (and the identical
clamp expression stored by each `MotorSpeeds` setter) always produces a
number in `[0, 1]`; in particular a NaN input comes out as `0`, because
`max(NaN, 0)` evaluates to `0` (the comparison `NaN > 0` is false) and
`min(0, 1)` is `0`. -/
theorem C10_nan_clamped :
    (∀ v : F32, ∃ r : ℝ, constrainF v = F32.num r ∧ 0 ≤ r ∧ r ≤ 1) ∧
      (∀ v : F32, setter_stored v = constrainF v) ∧
      fmaxF F32.nan (F32.num 0) = F32.num 0 ∧
      constrainF F32.nan = F32.num 0 := by
  have hmax0 : fmaxF F32.nan (F32.num 0) = F32.num 0 := by
    unfold fmaxF
    rw [if_neg]
    intro hc
    exact hc
  have hnan : constrainF F32.nan = F32.num 0 := by
    unfold constrainF
    rw [hmax0]
    unfold fminF
    rw [if_pos]
    show (0 : ℝ) < 1
    norm_num
  refine ⟨?_, fun _ => rfl, hmax0, hnan⟩
  intro v
  cases v with
  | nan =>
    exact ⟨0, hnan, le_refl 0, by norm_num⟩
  | num a =>
    unfold constrainF fmaxF fminF
    by_cases h0 : F32.fgt (F32.num a) (F32.num 0)
    · rw [if_pos h0]
      have ha : 0 < a := h0
      by_cases h1 : F32.flt (F32.num a) (F32.num 1)
      · rw [if_pos h1]
        exact ⟨a, rfl, ha.le, le_of_lt h1⟩
      · rw [if_neg h1]
        exact ⟨1, rfl, by norm_num, le_refl 1⟩
    · rw [if_neg h0]
      rw [if_pos]
      · exact ⟨0, rfl, le_refl 0, by norm_num⟩
      · show (0 : ℝ) < 1
        norm_num

/-- Claim C2: whenever one mixing step succeeds, each of the four produced
motor speeds lies in the closed interval `[0, 1]` (for every valid command
input and every sample). -/
theorem C2_speeds_saturated :
    ∀ (c : Controller) (p : IMUDataPoint) (t : TransmitterState) (c' : Controller),
      validCmd t → Controller.calculate_motor_speeds c p t = some c' →
        speedsInUnit c'.motors := by
  intro c p t c' _ h
  rw [tick_motors h]
  exact ⟨⟨constrain_nonneg _, constrain_le_one _⟩, ⟨constrain_nonneg _, constrain_le_one _⟩,
    ⟨constrain_nonneg _, constrain_le_one _⟩, ⟨constrain_nonneg _, constrain_le_one _⟩⟩

/-- The controller state after one tick from a fresh controller, all-zero
command input and the default sample. -/
noncomputable def cW2 : Controller :=
  (Controller.calculate_motor_speeds Controller.new IMUDataPoint.default tzero).getD Controller.new

/-- Witness for C2: the saturation theorem applied at a concrete tick. -/
theorem C2_speeds_saturated_witness : speedsInUnit cW2.motors :=
  C2_speeds_saturated Controller.new IMUDataPoint.default tzero cW2
    (by norm_num [validCmd, tzero]) rfl

/-- Claim C3 (counterexample): with `torqueError = (1, 0, 0)` and the
front-left arm position `p = (1, 0, -1)`, the residual
`torqueError − p·(p·torqueError)` has dot product `−1` with `p`, not `0`:
the claimed perpendicularity fails. -/
theorem C3_counterexample :
    ¬ (Vector3.dot
        (Vector3.sub ⟨1, 0, 0⟩
          (Vector3.scale MotorSpeeds.new.front_left.pos
            (Vector3.dot MotorSpeeds.new.front_left.pos ⟨1, 0, 0⟩)))
        MotorSpeeds.new.front_left.pos = 0) := by
  norm_num [MotorSpeeds.new, Motor.new, Vector3.dot, Vector3.sub, Vector3.scale]

/-- Claim C3 (amended): for every torqueError vector and each of the four
fixed arm positions `p` (all of squared norm 2), the residual of mixing step
4a satisfies `residual · p = −(p · torqueError)`; it is perpendicular to `p`
exactly when `p · torqueError = 0`, because the projection term is not
normalized by `‖p‖²`. -/
theorem C3_residual_projection :
    ∀ te : Vector3,
      Vector3.dot (Vector3.sub te (Vector3.scale MotorSpeeds.new.front_left.pos
          (Vector3.dot MotorSpeeds.new.front_left.pos te))) MotorSpeeds.new.front_left.pos
        = -(Vector3.dot MotorSpeeds.new.front_left.pos te) ∧
      Vector3.dot (Vector3.sub te (Vector3.scale MotorSpeeds.new.front_right.pos
          (Vector3.dot MotorSpeeds.new.front_right.pos te))) MotorSpeeds.new.front_right.pos
        = -(Vector3.dot MotorSpeeds.new.front_right.pos te) ∧
      Vector3.dot (Vector3.sub te (Vector3.scale MotorSpeeds.new.rear_left.pos
          (Vector3.dot MotorSpeeds.new.rear_left.pos te))) MotorSpeeds.new.rear_left.pos
        = -(Vector3.dot MotorSpeeds.new.rear_left.pos te) ∧
      Vector3.dot (Vector3.sub te (Vector3.scale MotorSpeeds.new.rear_right.pos
          (Vector3.dot MotorSpeeds.new.rear_right.pos te))) MotorSpeeds.new.rear_right.pos
        = -(Vector3.dot MotorSpeeds.new.rear_right.pos te) := by
  intro te
  refine ⟨?_, ?_, ?_, ?_⟩ <;>
    · simp only [MotorSpeeds.new, Motor.new, Vector3.dot, Vector3.sub, Vector3.scale]
      ring

/-- Claim C5 (counterexample): constructing with throttle 1.5 and
constructing with roll −0.1 fail with the very same error value (the fixed
panic message), so the failure identifies neither the violating axis nor the
violating value. -/
theorem C5_counterexample :
    TransmitterState.new 1.5 0 0 0 = TransmitterState.new 0 0 0 (-0.1) ∧
      TransmitterState.new 1.5 0 0 0 =
        Except.error "Transmitter values must be between 1 and 0" := by
  have hfirst : TransmitterState.new 1.5 0 0 0 =
      Except.error "Transmitter values must be between 1 and 0" := by
    unfold TransmitterState.new validate_input
    rw [if_pos (Or.inl (by norm_num))]
  have hlast : TransmitterState.new 0 0 0 (-0.1) =
      Except.error "Transmitter values must be between 1 and 0" := by
    unfold TransmitterState.new validate_input
    rw [if_neg (by norm_num), if_pos (Or.inr (by norm_num))]
  exact ⟨hfirst.trans hlast.symm, hfirst⟩

/-- Claim C5 (amended): constructing a command input with any axis outside
`[0, 1]` fails, but with the fixed message "Transmitter values must be
between 1 and 0" that identifies neither the axis nor the value; with all
four axes in `[0, 1]` (including exactly 0 and 1) construction succeeds and
the four fields are exactly the given in-range values. -/
theorem C5_validation :
    ∀ u r f l : ℝ,
      ((0 ≤ u ∧ u ≤ 1) → (0 ≤ r ∧ r ≤ 1) → (0 ≤ f ∧ f ≤ 1) → (0 ≤ l ∧ l ≤ 1) →
        TransmitterState.new u r f l = Except.ok ⟨u, r, l, f⟩) ∧
      ((u > 1 ∨ u < 0) ∨ (r > 1 ∨ r < 0) ∨ (f > 1 ∨ f < 0) ∨ (l > 1 ∨ l < 0) →
        TransmitterState.new u r f l =
          Except.error "Transmitter values must be between 1 and 0") := by
  intro u r f l
  constructor
  · intro hu hr hf hl
    unfold TransmitterState.new validate_input
    rw [if_neg (by push_neg; exact ⟨hu.2, hu.1⟩), if_neg (by push_neg; exact ⟨hr.2, hr.1⟩),
      if_neg (by push_neg; exact ⟨hf.2, hf.1⟩), if_neg (by push_neg; exact ⟨hl.2, hl.1⟩)]
  · intro hbad
    unfold TransmitterState.new validate_input
    by_cases hu : u > 1 ∨ u < 0
    · rw [if_pos hu]
    · rw [if_neg hu]
      by_cases hr : r > 1 ∨ r < 0
      · rw [if_pos hr]
      · rw [if_neg hr]
        by_cases hf : f > 1 ∨ f < 0
        · rw [if_pos hf]
        · rw [if_neg hf]
          by_cases hl : l > 1 ∨ l < 0
          · rw [if_pos hl]
          · rcases hbad with hb | hb | hb | hb
            exacts [(hu hb).elim, (hr hb).elim, (hf hb).elim, (hl hb).elim]

/-- Witness for C5: the amended theorem applied at the boundary value 1
(success) and at 1.5 (failure). -/
theorem C5_validation_witness :
    TransmitterState.new 1 0 0 0 = Except.ok ⟨1, 0, 0, 0⟩ ∧
      TransmitterState.new 1.5 0 0 0 =
        Except.error "Transmitter values must be between 1 and 0" :=
  ⟨(C5_validation 1 0 0 0).1 (by norm_num) (by norm_num) (by norm_num) (by norm_num),
    (C5_validation 1.5 0 0 0).2 (Or.inl (Or.inl (by norm_num)))⟩

/-- Claim C8: the MotorSpeeds invariant — the four named motors at the fixed
X-frame positions front-left (1,0,-1), front-right (1,0,1), rear-left
(-1,0,-1), rear-right (-1,0,1), with every stored speed in `[0, 1]` — is
established at construction and preserved by every setter and by every
successful mixing step. -/
theorem C8_motor_invariant :
    MotorInv MotorSpeeds.new ∧
      (∀ (m : MotorSpeeds) (v : ℝ), MotorInv m → MotorInv (m.set_front_left v)) ∧
      (∀ (m : MotorSpeeds) (v : ℝ), MotorInv m → MotorInv (m.set_front_right v)) ∧
      (∀ (m : MotorSpeeds) (v : ℝ), MotorInv m → MotorInv (m.set_rear_left v)) ∧
      (∀ (m : MotorSpeeds) (v : ℝ), MotorInv m → MotorInv (m.set_rear_right v)) ∧
      (∀ (c : Controller) (p : IMUDataPoint) (t : TransmitterState) (c' : Controller),
        MotorInv c.motors → Controller.calculate_motor_speeds c p t = some c' →
          MotorInv c'.motors) := by
  refine ⟨?_, ?_, ?_, ?_, ?_, ?_⟩
  · exact ⟨⟨rfl, rfl, rfl, rfl⟩,
      ⟨le_refl 0, zero_le_one⟩, ⟨le_refl 0, zero_le_one⟩,
      ⟨le_refl 0, zero_le_one⟩, ⟨le_refl 0, zero_le_one⟩⟩
  · intro m v hm
    exact ⟨hm.1, ⟨constrain_nonneg v, constrain_le_one v⟩, hm.2.2.1, hm.2.2.2.1, hm.2.2.2.2⟩
  · intro m v hm
    exact ⟨hm.1, hm.2.1, ⟨constrain_nonneg v, constrain_le_one v⟩, hm.2.2.2.1, hm.2.2.2.2⟩
  · intro m v hm
    exact ⟨hm.1, hm.2.1, hm.2.2.1, ⟨constrain_nonneg v, constrain_le_one v⟩, hm.2.2.2.2⟩
  · intro m v hm
    exact ⟨hm.1, hm.2.1, hm.2.2.1, hm.2.2.2.1, ⟨constrain_nonneg v, constrain_le_one v⟩⟩
  · intro c p t c' hm h
    rw [tick_motors h]
    exact ⟨hm.1, ⟨constrain_nonneg _, constrain_le_one _⟩, ⟨constrain_nonneg _, constrain_le_one _⟩,
      ⟨constrain_nonneg _, constrain_le_one _⟩, ⟨constrain_nonneg _, constrain_le_one _⟩⟩

/-- The controller state after one tick from a fresh controller, used as the
concrete instance for the C8 witness. -/
noncomputable def cW8 : Controller :=
  (Controller.calculate_motor_speeds Controller.new IMUDataPoint.default tzero).getD Controller.new

/-- Witness for C8: the invariant theorem applied to a concrete
out-of-range setter call and to a concrete mixing step. -/
theorem C8_motor_invariant_witness :
    MotorInv (MotorSpeeds.new.set_front_left 2) ∧ MotorInv cW8.motors :=
  ⟨C8_motor_invariant.2.1 MotorSpeeds.new 2
      ⟨⟨rfl, rfl, rfl, rfl⟩, ⟨le_refl 0, zero_le_one⟩, ⟨le_refl 0, zero_le_one⟩,
        ⟨le_refl 0, zero_le_one⟩, ⟨le_refl 0, zero_le_one⟩⟩,
    C8_motor_invariant.2.2.2.2.2 Controller.new IMUDataPoint.default tzero cW8
      ⟨⟨rfl, rfl, rfl, rfl⟩, ⟨le_refl 0, zero_le_one⟩, ⟨le_refl 0, zero_le_one⟩,
        ⟨le_refl 0, zero_le_one⟩, ⟨le_refl 0, zero_le_one⟩⟩ rfl⟩

/-- Claim C9: the mixing step is deterministic — two successive invocations
with the same command input and the same sample produce identical motor
speeds, and more generally the output speeds are a function of the arm
positions, the command input and the freshly ingested sample only,
independent of prior motor speeds or any other controller state. -/
theorem C9_deterministic :
    (∀ (c : Controller) (p : IMUDataPoint) (t : TransmitterState) (c1 c2 : Controller),
        Controller.calculate_motor_speeds c p t = some c1 →
        Controller.calculate_motor_speeds c1 p t = some c2 →
          speedsOf c1.motors = speedsOf c2.motors) ∧
      (∀ (ca cb : Controller) (p : IMUDataPoint) (t : TransmitterState) (ca' cb' : Controller),
        posOf ca.motors = posOf cb.motors →
        Controller.calculate_motor_speeds ca p t = some ca' →
        Controller.calculate_motor_speeds cb p t = some cb' →
          speedsOf ca'.motors = speedsOf cb'.motors) := by
  have key : ∀ (ca cb : Controller) (p : IMUDataPoint) (t : TransmitterState)
      (ca' cb' : Controller),
      posOf ca.motors = posOf cb.motors →
      Controller.calculate_motor_speeds ca p t = some ca' →
      Controller.calculate_motor_speeds cb p t = some cb' →
        speedsOf ca'.motors = speedsOf cb'.motors := by
    intro ca cb p t ca' cb' hpos h1 h2
    rw [tick_motors h1, tick_motors h2]
    exact speedsOf_mix_congr p t hpos
  refine ⟨?_, key⟩
  intro c p t c1 c2 h1 h2
  have hpos : posOf c.motors = posOf c1.motors := by
    rw [tick_motors h1]
    exact (mix_posOf c.motors p t).symm
  exact key c c1 p t c1 c2 hpos h1 h2

/-- The controller state after one tick, for the C9 witness. -/
noncomputable def cW9a : Controller :=
  (Controller.calculate_motor_speeds Controller.new IMUDataPoint.default tzero).getD Controller.new

/-- The controller state after a second identical tick, for the C9 witness. -/
noncomputable def cW9b : Controller :=
  (Controller.calculate_motor_speeds cW9a IMUDataPoint.default tzero).getD Controller.new

/-- Witness for C9: two concrete successive ticks with the same inputs give
the same speeds. -/
theorem C9_deterministic_witness : speedsOf cW9a.motors = speedsOf cW9b.motors :=
  C9_deterministic.1 Controller.new IMUDataPoint.default tzero cW9a cW9b rfl rfl

/-- Claim C4: on a controller with the standard arm positions, a successful
mixing step computes exactly the spec's formula: desired = ((π/6)·roll, 0,
(π/6)·pitch); torqueError = desired − angularVelocity with its Y component
zeroed; each motor speed = clamp(‖torqueError − p·(p·torqueError)‖ +
throttle·0.5 + yawSign·yawRate·0.25, 0, 1), with yawSign +1 for
front-left/rear-right and −1 for front-right/rear-left. -/
theorem C4_mixing_formula :
    ∀ (c : Controller) (p : IMUDataPoint) (t : TransmitterState) (c' : Controller),
      stdPos c.motors →
      Controller.calculate_motor_speeds c p t = some c' →
        speedsOf c'.motors =
          specMotorSpeeds t.up_down t.rotate_pos_neg t.forwar_backward t.left_right p.gyro := by
  intro c p t c' hstd h
  obtain ⟨h1, h2, h3, h4⟩ := hstd
  have hte : (⟨(Vector3.sub ⟨Real.pi / 6 * t.left_right, 0,
        Real.pi / 6 * t.forwar_backward⟩ p.gyro).x, 0,
      (Vector3.sub ⟨Real.pi / 6 * t.left_right, 0,
        Real.pi / 6 * t.forwar_backward⟩ p.gyro).z⟩ : Vector3) = torqueErr p t := by
    unfold torqueErr Vector3.sub
    simp only [Vector3.mk.injEq]
    refine ⟨by ring, trivial, by ring⟩
  rw [tick_motors h]
  simp only [speedsOf, mixMotors, specMotorSpeeds, h1, h2, h3, h4]
  rw [hte]
  simp only [constrain_eq_clampSpec, motorRaw, Prod.mk.injEq]
  refine ⟨?_, ?_, ?_, ?_⟩ <;>
    · congr 1
      ring

/-- The controller state after one tick, for the C4 witness. -/
noncomputable def cW4 : Controller :=
  (Controller.calculate_motor_speeds Controller.new IMUDataPoint.default tzero).getD Controller.new

/-- Witness for C4: the formula theorem applied at a concrete tick. -/
theorem C4_mixing_formula_witness :
    speedsOf cW4.motors = specMotorSpeeds tzero.up_down tzero.rotate_pos_neg
      tzero.forwar_backward tzero.left_right IMUDataPoint.default.gyro :=
  C4_mixing_formula Controller.new IMUDataPoint.default tzero cW4 ⟨rfl, rfl, rfl, rfl⟩ rfl

end Drone
